import Mathlib

/-!
Shallow embedding of the slintrust ORM core (src/libs/orm.rs, src/libs/new_orm.rs,
src/libs/query_builder.rs, src/libs/schema.rs) and proofs about its
statement-building, row-decoding and facade behaviour.

Conventions of the embedding:
* serde_json::Value is modelled by the inductive `Json`; f64 payloads are kept
  opaque as `FloatBits` (no float arithmetic occurs anywhere in the modelled code).
* The random Uuid::new_v4() source is modelled as an explicit stream
  `gen : Nat -> String` together with a counter that advances once per call,
  in call order.
* A database row, as seen through sqlx, is a list of named cells; a `Cell`
  records the outcome of each of the four typed extraction attempts the code
  performs (failure / null / value).
* Effectful methods are modelled as pure functions over the data they touch;
  the rows a query execution would return are passed in explicitly, and
  functions return the SQL text plus the ordered parameter list they would
  have executed.  Rust panics surface as `Except.error` values.
* The generic record type T (Serialize + DeserializeOwned) is instantiated at
  the structured value itself, where serde round-tripping is the identity, so
  the serde_json::from_value step never fails and is dropped.
-/

namespace SlintOrm

/-- Opaque stand-in for an f64 payload (carried through, never computed with). -/
structure FloatBits where
  bits : Nat

/-- serde_json::Value: null, bool, number (split into int and float), string, object. -/
inductive Json where
  | null
  | bool (b : Bool)
  | int (n : Int)
  | float (f : FloatBits)
  | str (s : String)
  | obj (fields : List (String × Json))

/-- serde_json::Value::get on an object key: `map.get(&name)` (None on non-objects). -/
def Json.get : Json → String → Option Json
  | Json.obj fields, key => fields.lookup key
  | _, _ => none

/-- src/libs/schema.rs ColumnSchema. -/
structure ColumnSchema where
  name : String
  sql_type : String
  primary : Bool
  unique : Bool
  not_null : Bool
  uuid : Bool

/-- src/libs/schema.rs TableSchema. -/
structure TableSchema where
  name : String
  columns : List ColumnSchema

/-- Error kinds surfaced by the modelled operations (sqlx errors and panics). -/
inductive OrmError where
  | preconditionViolation (msg : String)
  | schemaNotFound
  | rowNotFound
  | panicked (msg : String)

/-! ## Value codec: row decoding (orm.rs first/find/get_all, new_orm.rs get,
    query_builder.rs fetch_all all contain the same nested try_get chain) -/

/-- One database cell as observed through sqlx: the outcome of each typed
extraction attempt.  `none` = the extraction errors, `some none` = SQL NULL,
`some (some v)` = a value of that type. -/
structure Cell where
  asInt : Option (Option Int)
  asFloat : Option (Option FloatBits)
  asBool : Option (Option Bool)
  asText : Option (Option String)

/-- The nested `match r.try_get::<Option<i64>> / <Option<f64>> / <Option<bool>> /
<Option<String>>` chain shared by every row-decoding loop in the source. -/
def decodeCell (c : Cell) : Json :=
  match c.asInt with
  | some (some v) => Json.int v
  | some none => Json.null
  | none =>
    match c.asFloat with
    | some (some v) => Json.float v
    | some none => Json.null
    | none =>
      match c.asBool with
      | some (some v) => Json.bool v
      | some none => Json.null
      | none =>
        match c.asText with
        | some (some v) => Json.str v
        | some none => Json.null
        | none => Json.null

/-- Modelled from the spec: the four extraction attempts of a cell in the
spec's priority order (int, float, bool, text), each mapped to the structured
value it would produce on success (a successfully extracted null gives null). -/
def cellAttempts (c : Cell) : List (Option Json) :=
  [ c.asInt.map (fun o => (o.map Json.int).getD Json.null)
  , c.asFloat.map (fun o => (o.map Json.float).getD Json.null)
  , c.asBool.map (fun o => (o.map Json.bool).getD Json.null)
  , c.asText.map (fun o => (o.map Json.str).getD Json.null) ]

/-- Modelled from the spec: take the first attempt that succeeds; if every
attempt fails the column maps to null. -/
def firstSuccess : List (Option Json) → Json
  | [] => Json.null
  | some v :: _ => v
  | none :: rest => firstSuccess rest

/-- A fetched row: named cells in column order. -/
def Row : Type := List (String × Cell)

/-- Decode a full row into a structured object (the per-column loop building a
serde_json::Map). -/
def decodeRow (r : Row) : Json :=
  Json.obj (r.map fun p => (p.1, decodeCell p.2))

/-! ## orm.rs OrmStruct -/

/-- OrmStruct::placeholders. -/
def placeholders (count : Nat) : List String :=
  (List.range count).map fun i => "$" ++ toString (i + 1)

/-- The per-column value loop of OrmStruct::insert: for each schema column,
if `c.uuid && map.get(&c.name).is_none()` a fresh Uuid::new_v4() string is
pushed (one generator draw, advancing the counter), otherwise the item's field
(cloned, defaulting to null).  Returns the values in schema column order and
the advanced generator counter. -/
def insertVals (item : Json) (gen : Nat → String) : List ColumnSchema → Nat → List Json × Nat
  | [], g => ([], g)
  | c :: cs, g =>
    if c.uuid && (item.get c.name).isNone then
      let rest := insertVals item gen cs (g + 1)
      (Json.str (gen g) :: rest.1, rest.2)
    else
      let rest := insertVals item gen cs g
      ((item.get c.name).getD Json.null :: rest.1, rest.2)

/-- OrmStruct::insert, up to the point where the statement is executed:
the INSERT text, the ordered values it binds, and the advanced generator
counter. -/
def OrmStruct.insertStmt (schema : TableSchema) (item : Json) (gen : Nat → String) (g : Nat) :
    (String × List Json) × Nat :=
  let cols := schema.columns.map (fun c => c.name)
  let vg := insertVals item gen schema.columns g
  (("INSERT INTO " ++ schema.name ++ " (" ++ String.intercalate "," cols ++ ") VALUES ("
      ++ String.intercalate "," (placeholders cols.length) ++ ")", vg.1), vg.2)

/-- OrmStruct::first, up to execution: schema lookup (panics as SchemaNotFound),
then the single-column equality SELECT with its one bound parameter. -/
def OrmStruct.firstStmt (schemas : List TableSchema) (table_name column value : String) :
    Except OrmError (String × List String) :=
  match schemas.find? (fun s => s.name == table_name) with
  | none => Except.error OrmError.schemaNotFound
  | some s => Except.ok ("SELECT * FROM " ++ s.name ++ " WHERE " ++ column ++ " = $1 LIMIT 1", [value])

/-- The set/bind loop of OrmStruct::update: walk the schema columns, and for
each one present in the serialized item push `name = $(binds.len()+1)` and the
value. -/
def ormUpdateGo (item : Json) : List ColumnSchema → List String → List Json → List String × List Json
  | [], sets, binds => (sets, binds)
  | c :: cs, sets, binds =>
    match item.get c.name with
    | some v => ormUpdateGo item cs (sets ++ [c.name ++ " = $" ++ toString (binds.length + 1)]) (binds ++ [v])
    | none => ormUpdateGo item cs sets binds

/-- OrmStruct::update, up to execution: the UPDATE text and the ordered
parameters (set values first, the key value last). -/
def OrmStruct.updateStmt (schema : TableSchema) (column value : String) (item : Json) :
    String × List Json :=
  let sb := ormUpdateGo item schema.columns [] []
  ("UPDATE " ++ schema.name ++ " SET " ++ String.intercalate ", " sb.1
      ++ " WHERE " ++ column ++ " = $" ++ toString (sb.2.length + 1),
    sb.2 ++ [Json.str value])

/-! ## query_builder.rs QueryBuilder -/

structure QueryBuilder where
  table : String
  selects : List String
  wheres : List String
  joins : List String
  groups : List String
  havings : List String
  limit_clause : Option String
  offset_clause : Option String
  order_clause : Option String
  params : List String

/-- QueryBuilder::new. -/
def QueryBuilder.new (table : String) : QueryBuilder :=
  ⟨table, ["*"], [], [], [], [], none, none, none, []⟩

/-- QueryBuilder::where (raw identifier r#where in the source). -/
def QueryBuilder.whereOp (qb : QueryBuilder) (column op value : String) : QueryBuilder :=
  { qb with
    wheres := qb.wheres ++ [column ++ " " ++ op ++ " $" ++ toString (qb.params.length + 1)]
    params := qb.params ++ [value] }

/-- QueryBuilder::like: wraps the pattern in percent wildcards before binding. -/
def QueryBuilder.like (qb : QueryBuilder) (column pattern : String) : QueryBuilder :=
  { qb with
    wheres := qb.wheres ++ [column ++ " LIKE $" ++ toString (qb.params.length + 1)]
    params := qb.params ++ ["%" ++ pattern ++ "%"] }

/-- QueryBuilder::ilike: wraps the pattern in percent wildcards before binding. -/
def QueryBuilder.ilike (qb : QueryBuilder) (column pattern : String) : QueryBuilder :=
  { qb with
    wheres := qb.wheres ++ [column ++ " ILIKE $" ++ toString (qb.params.length + 1)]
    params := qb.params ++ ["%" ++ pattern ++ "%"] }

/-- QueryBuilder::build_sql. -/
def QueryBuilder.build_sql (qb : QueryBuilder) : String :=
  "SELECT " ++ String.intercalate "," qb.selects ++ " FROM " ++ qb.table
    ++ (if qb.joins.isEmpty then "" else " " ++ String.intercalate " " qb.joins)
    ++ (if qb.wheres.isEmpty then "" else " WHERE " ++ String.intercalate " AND " qb.wheres)
    ++ (if qb.groups.isEmpty then "" else " GROUP BY " ++ String.intercalate ", " qb.groups)
    ++ (if qb.havings.isEmpty then "" else " HAVING " ++ String.intercalate " AND " qb.havings)
    ++ (match qb.order_clause with | some o => " " ++ o | none => "")
    ++ (match qb.limit_clause with | some l => " " ++ l | none => "")
    ++ (match qb.offset_clause with | some o => " " ++ o | none => "")

/-- QueryBuilder::fetch_all applied to the rows the database returned for the
built statement: decode every row (at T = structured value the serde step
cannot fail). -/
def QueryBuilder.fetch_all (qb : QueryBuilder) (rows : List Row) : Except OrmError (List Json) :=
  Except.ok (rows.map decodeRow)

/-- QueryBuilder::fetch_one: fetch_all then Vec::pop (which removes and
returns the LAST element), RowNotFound when empty. -/
def QueryBuilder.fetch_one (qb : QueryBuilder) (rows : List Row) : Except OrmError Json := do
  let all ← qb.fetch_all rows
  match all.getLast? with
  | some v => Except.ok v
  | none => Except.error OrmError.rowNotFound

/-! ## new_orm.rs Record -/

/-- new_orm.rs Record (the T payload instantiated at the structured value). -/
structure RecordM where
  table_name : String
  value : Json
  key_column : String
  id : Json

/-- Record::new: snapshots the key value out of the serialized payload; the
source unwraps, i.e. panics, when the key field is absent (modelled as none). -/
def RecordM.new (table_name : String) (value : Json) (key_column : String) : Option RecordM :=
  (value.get key_column).map fun i => ⟨table_name, value, key_column, i⟩

/-- The SET/VALUES loop of Record::update: for each payload pair push
`key = $(values.len()+1)` and the value, which must be a string
(value.as_str().expect, a panic otherwise). -/
def updateGo : List (String × Json) → List String → List String → Except OrmError (List String × List String)
  | [], sets, values => Except.ok (sets, values)
  | (k, v) :: rest, sets, values =>
    match v with
    | Json.str s => updateGo rest (sets ++ [k ++ " = $" ++ toString (values.length + 1)]) (values ++ [s])
    | _ => Except.error (OrmError.panicked "value must be string")

/-- The statement-building half of Record::update: the UPDATE text and its
parameters, the snapshotted id (which must be a string: self.id.as_str().unwrap())
bound last. -/
def RecordM.updateStmt (r : RecordM) (updates : List (String × Json)) :
    Except OrmError (String × List String) := do
  let sv ← updateGo updates [] []
  let sql := "UPDATE " ++ r.table_name ++ " SET " ++ String.intercalate ", " sv.1
      ++ " WHERE " ++ r.key_column ++ " = $" ++ toString (sv.2.length + 1)
  match r.id with
  | Json.str idS => Except.ok (sql, sv.2 ++ [idS])
  | _ => Except.error (OrmError.panicked "id must be a string")

/-- Everything Record::update executes, made observable: the UPDATE statement,
the re-fetch SELECT built through orm.query(..).where(key, "=", id) and its
parameters, and the freshly decoded value fetch_one returns. -/
structure UpdateExec where
  updateSql : String
  updateParams : List String
  refetchSql : String
  refetchParams : List String
  result : Json

/-- Record::update: build and execute the UPDATE (updates must be an object,
its values strings), then re-fetch the row by the snapshotted key value with
fetch_one and return the fresh decoded value.  The method takes &self; the
record it returns alongside is the untouched receiver. -/
def RecordM.update (r : RecordM) (updates : Json) (refetchRows : List Row) :
    Except OrmError (UpdateExec × RecordM) :=
  match updates with
  | Json.obj m => do
    let stmt ← r.updateStmt m
    match r.id with
    | Json.str idS =>
      let qb := (QueryBuilder.new r.table_name).whereOp r.key_column "=" idS
      let fetched ← qb.fetch_one refetchRows
      Except.ok (⟨stmt.1, stmt.2, qb.build_sql, qb.params, fetched⟩, r)
    | _ => Except.error (OrmError.panicked "id must be a string")
  | _ => Except.error (OrmError.panicked "updates must be an object")

/-- Record::new composed after row decoding, as Table::get / Query::get do. -/
def RecordM.update_from (t : String) (v : Json) (k : String) (updates : Json) (refetchRows : List Row) :
    Except OrmError (UpdateExec × RecordM) :=
  match RecordM.new t v k with
  | some r => r.update updates refetchRows
  | none => Except.error (OrmError.panicked "key field missing")

/-! ## new_orm.rs Table -/

/-- new_orm.rs Table: name and designated key column. -/
structure TableM where
  name : String
  key_column : String

/-- Table::get, up to execution: as_object (panic on non-objects), the
single-pair arity check (panic "Only single-column filter supported"),
value.as_str().unwrap() (panic on non-string values), then OrmStruct::first
building the equality lookup.  Ok carries the SELECT that would be executed
with its one parameter; every error branch issues no database call. -/
def Table.get (schemas : List TableSchema) (t : TableM) (filter : Json) :
    Except OrmError (String × List String) :=
  match filter with
  | Json.obj m =>
    if m.length ≠ 1 then
      Except.error (OrmError.preconditionViolation "Only single-column filter supported")
    else
      match m with
      | [] => Except.error (OrmError.panicked "unwrap on empty iterator")
      | (column, value) :: _ =>
        match value with
        | Json.str s => OrmStruct.firstStmt schemas t.name column s
        | _ => Except.error (OrmError.panicked "filter value must be a string")
  | _ => Except.error (OrmError.panicked "Filter must be an object")

/-! ## new_orm.rs Query -/

structure Query where
  table_name : String
  key_column : String
  wheres : List (String × String × String)
  limit : Option Nat
  offset : Option Nat
  order_by : Option (String × String)
  distinct : Bool
  group_by : List String
  havings : List (String × String × String)

/-- Query::new. -/
def Query.new (table_name key_column : String) : Query :=
  ⟨table_name, key_column, [], none, none, none, false, [], []⟩

/-- Query::where_clause. -/
def Query.where_clause (q : Query) (column op value : String) : Query :=
  { q with wheres := q.wheres ++ [(column, op, value)] }

/-- Query::having. -/
def Query.having (q : Query) (column op value : String) : Query :=
  { q with havings := q.havings ++ [(column, op, value)] }

/-- Query::limit (named withLimit here because `limit` is the field). -/
def Query.withLimit (q : Query) (n : Nat) : Query :=
  { q with limit := some n }

/-- The numbered WHERE conditions of Query::get: placeholder i+1 for the i-th
clause. -/
def whereConds (ws : List (String × String × String)) : List String :=
  ws.enum.map fun p => p.2.1 ++ " " ++ p.2.2.1 ++ " $" ++ toString (p.1 + 1)

/-- The numbered HAVING conditions of Query::get: placeholder
wheres.len() + i + 1 for the i-th clause. -/
def havingConds (nWheres : Nat) (hs : List (String × String × String)) : List String :=
  hs.enum.map fun p => p.2.1 ++ " " ++ p.2.2.1 ++ " $" ++ toString (nWheres + p.1 + 1)

/-- The WHERE segment appended by Query::get (nothing when the list is empty). -/
def whereSeg (ws : List (String × String × String)) : String :=
  if ws.isEmpty then "" else " WHERE " ++ String.intercalate " AND " (whereConds ws)

/-- The GROUP BY segment appended by Query::get (nothing when empty). -/
def groupSeg (gs : List String) : String :=
  if gs.isEmpty then "" else " GROUP BY " ++ String.intercalate ", " gs

/-- The HAVING segment appended by Query::get (nothing when empty). -/
def havingSeg (nWheres : Nat) (hs : List (String × String × String)) : String :=
  if hs.isEmpty then "" else " HAVING " ++ String.intercalate " AND " (havingConds nWheres hs)

/-- The ORDER BY segment appended by Query::get (nothing when unset). -/
def orderSeg : Option (String × String) → String
  | some p => " ORDER BY " ++ p.1 ++ " " ++ p.2
  | none => ""

/-- The LIMIT segment appended by Query::get (nothing when unset). -/
def limitSeg : Option Nat → String
  | some n => " LIMIT " ++ toString n
  | none => ""

/-- The OFFSET segment appended by Query::get (nothing when unset). -/
def offsetSeg : Option Nat → String
  | some n => " OFFSET " ++ toString n
  | none => ""

/-- The SELECT text Query::get assembles by successive push_str calls. -/
def Query.selectSql (q : Query) : String :=
  (if q.distinct then "SELECT DISTINCT *" else "SELECT *") ++ " FROM " ++ q.table_name
    ++ whereSeg q.wheres ++ groupSeg q.group_by ++ havingSeg q.wheres.length q.havings
    ++ orderSeg q.order_by ++ limitSeg q.limit ++ offsetSeg q.offset

/-- The parameters Query::get binds: all WHERE values in clause order, then
all HAVING values in clause order. -/
def Query.selectParams (q : Query) : List String :=
  q.wheres.map (fun w => w.2.2) ++ q.havings.map (fun w => w.2.2)

/-- The row-materialization loop of Query::get applied to the rows the
database returned: decode each row and wrap it in a Record (whose constructor
panics when the key column is missing from the decoded row). -/
def Query.getRecords (q : Query) : List Row → Except OrmError (List RecordM)
  | [] => Except.ok []
  | r :: rest =>
    match RecordM.new q.table_name (decodeRow r) q.key_column with
    | some rec => (q.getRecords rest).map fun l => rec :: l
    | none => Except.error (OrmError.panicked "key field missing")

/-- Query::first: limit(1).get() then take the first element, if any. -/
def Query.first (q : Query) (rows : List Row) : Except OrmError (Option RecordM) := do
  let l ← (q.withLimit 1).getRecords rows
  return l.head?

/-- Query::first_value: limit(1).get(), then the first element's inner value,
RowNotFound when the result set is empty. -/
def Query.first_value (q : Query) (rows : List Row) : Except OrmError Json := do
  let l ← (q.withLimit 1).getRecords rows
  match l.head? with
  | some r => Except.ok r.value
  | none => Except.error OrmError.rowNotFound

/-! ## Spec-side description helpers -/

/-- Modelled from the spec: the SET assignments `col = $(n+i+1)` for a payload,
numbering from n. -/
def setsFrom (n : Nat) : List (String × α) → List String
  | [] => []
  | (k, _) :: rest => (k ++ " = $" ++ toString (n + 1)) :: setsFrom (n + 1) rest

/-- The schema columns present in the serialized item, with their values, in
schema order (what OrmStruct::update ends up setting). -/
def presentPairs (item : Json) (cols : List ColumnSchema) : List (String × Json) :=
  cols.filterMap fun c => (item.get c.name).map fun v => (c.name, v)

/-! ## Concrete fixtures used by witnesses and counterexamples -/

/-- A deterministic injective identifier stream standing in for Uuid::new_v4. -/
def demoGen (n : Nat) : String :=
  String.mk (List.replicate (n + 1) 'u')

/-- The users table of the spec scenario: id is the generated-key column. -/
def usersSchema : TableSchema :=
  ⟨"users",
    [ ⟨"id", "TEXT", true, false, false, true⟩
    , ⟨"name", "TEXT", false, false, false, false⟩
    , ⟨"email", "TEXT", false, true, false, false⟩ ]⟩

/-- An item whose generated-key field is serialized as the empty string. -/
def demoItemEmptyId : Json :=
  Json.obj [("id", Json.str ""), ("name", Json.str "Ada"), ("email", Json.str "ada@mail.com")]

/-- An item with the generated-key field absent. -/
def demoItemNoId : Json :=
  Json.obj [("name", Json.str "Ada"), ("email", Json.str "ada@mail.com")]

def demoTable : TableM := ⟨"users", "id"⟩

/-- A text cell whose int/float/bool extractions fail. -/
def textCell (s : String) : Cell := ⟨none, none, none, some (some s)⟩

/-- A row for user a1. -/
def demoRowA : Row := [("id", textCell "a1"), ("name", textCell "Ada")]

/-- A row for user b2. -/
def demoRowB : Row := [("id", textCell "b2"), ("name", textCell "Bob")]

/-- The record demoRowA decodes to under key column id. -/
def demoRecA : RecordM :=
  ⟨"users", Json.obj [("id", Json.str "a1"), ("name", Json.str "Ada")], "id", Json.str "a1"⟩

/-- An update payload that also rewrites the key column itself. -/
def demoUpdates : Json := Json.obj [("id", Json.str "zz"), ("name", Json.str "Ada Lovelace")]

/-- What Record::update executes for demoRecA, demoUpdates and re-fetch rows
[demoRowB]: the re-fetch binds the snapshotted a1, not the zz from the
payload. -/
def demoExec : UpdateExec :=
  ⟨"UPDATE users SET id = $1, name = $2 WHERE id = $3", ["zz", "Ada Lovelace", "a1"],
   "SELECT * FROM users WHERE id = $1", ["a1"],
   Json.obj [("id", Json.str "b2"), ("name", Json.str "Bob")]⟩

end SlintOrm

namespace SlintOrm

/-! # Helper lemmas -/

/-- String.intercalate over a single element is that element. -/
theorem intercalate_single (sep x : String) : String.intercalate sep [x] = x := rfl

/-- Pointwise description of the numbered WHERE condition list. -/
theorem whereConds_get (ws : List (String × String × String)) (i : Nat) :
    (whereConds ws).get? i =
      (ws.get? i).map (fun w => w.1 ++ " " ++ w.2.1 ++ " $" ++ toString (i + 1)) := by
  simp only [whereConds, List.get?_map, List.get?_enum, Option.map_map]
  cases ws.get? i <;> rfl

/-- Pointwise description of the numbered HAVING condition list. -/
theorem havingConds_get (n : Nat) (hs : List (String × String × String)) (j : Nat) :
    (havingConds n hs).get? j =
      (hs.get? j).map (fun w => w.1 ++ " " ++ w.2.1 ++ " $" ++ toString (n + j + 1)) := by
  simp only [havingConds, List.get?_map, List.get?_enum, Option.map_map]
  cases hs.get? j <;> rfl

/-- Query::limit only touches the limit field, so row materialization is
unchanged. -/
theorem getRecords_withLimit (q : Query) (n : Nat) :
    ∀ rows : List Row, (q.withLimit n).getRecords rows = q.getRecords rows := by
  intro rows
  induction rows with
  | nil => rfl
  | cons r rs ih =>
    simp only [Query.withLimit] at ih
    simp only [Query.getRecords, Query.withLimit]
    rw [ih]

/-- When every decoded row carries the key column, materialization succeeds. -/
theorem getRecords_ok_of_all (q : Query) :
    ∀ rows : List Row,
      (∀ rw ∈ rows, (RecordM.new q.table_name (decodeRow rw) q.key_column).isSome) →
      ∃ l, q.getRecords rows = Except.ok l := by
  intro rows
  induction rows with
  | nil => exact fun _ => ⟨[], rfl⟩
  | cons r rs ih =>
    intro hall
    have hr := hall r (by simp)
    rw [Option.isSome_iff_exists] at hr
    obtain ⟨rec, hrec⟩ := hr
    obtain ⟨l, hl⟩ := ih (fun rw hm => hall rw (by simp [hm]))
    exact ⟨rec :: l, by simp [Query.getRecords, hrec, hl, Except.map]⟩

/-- Unfolding insertVals on a generated-key column with no serialized value. -/
theorem insertVals_cons_pos (item : Json) (gen : Nat → String) (c : ColumnSchema)
    (cs : List ColumnSchema) (g : Nat) (h : (c.uuid && (item.get c.name).isNone) = true) :
    insertVals item gen (c :: cs) g =
      (Json.str (gen g) :: (insertVals item gen cs (g + 1)).1,
        (insertVals item gen cs (g + 1)).2) := by
  simp [insertVals, h]

/-- Unfolding insertVals on a column whose value is taken from the item. -/
theorem insertVals_cons_neg (item : Json) (gen : Nat → String) (c : ColumnSchema)
    (cs : List ColumnSchema) (g : Nat) (h : ¬(c.uuid && (item.get c.name).isNone) = true) :
    insertVals item gen (c :: cs) g =
      ((item.get c.name).getD Json.null :: (insertVals item gen cs g).1,
        (insertVals item gen cs g).2) := by
  simp [insertVals, h]

/-- The generator counter never decreases across an insert. -/
theorem insertVals_counter_le (item : Json) (gen : Nat → String) :
    ∀ (cs : List ColumnSchema) (g : Nat), g ≤ (insertVals item gen cs g).2 := by
  intro cs
  induction cs with
  | nil => intro g; exact Nat.le_refl g
  | cons c cs ih =>
    intro g
    by_cases h : (c.uuid && (item.get c.name).isNone) = true
    · rw [insertVals_cons_pos item gen c cs g h]
      exact Nat.le_trans (Nat.le_succ g) (ih (g + 1))
    · rw [insertVals_cons_neg item gen c cs g h]
      exact ih g

/-- Per-column description of the insert values: a generated-key column with
no serialized value receives some identifier drawn from the stream inside the
consumed window, any other column the item's field (null when absent). -/
theorem insertVals_get (item : Json) (gen : Nat → String) :
    ∀ (cs : List ColumnSchema) (g i : Nat) (c : ColumnSchema), cs.get? i = some c →
      (if (c.uuid && (item.get c.name).isNone) = true then
        ∃ j, g ≤ j ∧ j < (insertVals item gen cs g).2 ∧
          (insertVals item gen cs g).1.get? i = some (Json.str (gen j))
      else (insertVals item gen cs g).1.get? i = some ((item.get c.name).getD Json.null)) := by
  intro cs
  induction cs with
  | nil => intro g i c hc; cases hc
  | cons c0 cs ih =>
    intro g i c hc
    cases i with
    | zero =>
      rw [List.get?_cons_zero] at hc
      obtain rfl := Option.some.inj hc
      by_cases h : (c0.uuid && (item.get c0.name).isNone) = true
      · rw [if_pos h, insertVals_cons_pos item gen c0 cs g h]
        exact ⟨g, Nat.le_refl g,
          Nat.lt_of_lt_of_le (Nat.lt_succ_self g) (insertVals_counter_le item gen cs (g + 1)), rfl⟩
      · rw [if_neg h, insertVals_cons_neg item gen c0 cs g h]
        rfl
    | succ i =>
      rw [List.get?_cons_succ] at hc
      by_cases h0 : (c0.uuid && (item.get c0.name).isNone) = true
      · rw [insertVals_cons_pos item gen c0 cs g h0]
        have hrec := ih (g + 1) i c hc
        by_cases h : (c.uuid && (item.get c.name).isNone) = true
        · rw [if_pos h] at hrec ⊢
          obtain ⟨j, hj1, hj2, hj3⟩ := hrec
          exact ⟨j, Nat.le_trans (Nat.le_succ g) hj1, hj2, hj3⟩
        · rw [if_neg h] at hrec ⊢
          exact hrec
      · rw [insertVals_cons_neg item gen c0 cs g h0]
        exact ih g i c hc

/-- The demo identifier stream is injective. -/
theorem demoGen_injective : Function.Injective demoGen := by
  intro a b h
  have h2 := congrArg String.length h
  simp only [demoGen, String.length, List.length_replicate] at h2
  omega

/-- Pointwise description of the spec-side SET assignment list. -/
theorem setsFrom_get {α : Type} :
    ∀ (qs : List (String × α)) (n i : Nat),
      (setsFrom n qs).get? i = (qs.get? i).map fun q => q.1 ++ " = $" ++ toString (n + i + 1) := by
  intro qs
  induction qs with
  | nil => intro n i; simp [setsFrom]
  | cons q qs ih =>
    intro n i
    obtain ⟨k, v⟩ := q
    cases i with
    | zero => simp [setsFrom]
    | succ i =>
      simp only [setsFrom, List.get?_cons_succ, ih (n + 1) i]
      have harith : n + 1 + i + 1 = n + (i + 1) + 1 := by omega
      rw [harith]

/-- The Record::update SET loop on an all-string payload: assignments numbered
from the current value count, values appended in payload order. -/
theorem updateGo_spec :
    ∀ (ps : List (String × String)) (sets values : List String),
      updateGo (ps.map fun p => (p.1, Json.str p.2)) sets values =
        Except.ok (sets ++ setsFrom values.length ps, values ++ ps.map fun p => p.2) := by
  intro ps
  induction ps with
  | nil => intro sets values; simp [updateGo, setsFrom]
  | cons p ps ih =>
    intro sets values
    obtain ⟨k, s⟩ := p
    simp only [List.map_cons, updateGo, ih, setsFrom]
    rw [List.length_append]
    simp [List.append_assoc]

/-- The OrmStruct::update SET loop: exactly the schema columns present in the
item are set, in schema order. -/
theorem ormUpdateGo_spec (item : Json) :
    ∀ (cols : List ColumnSchema) (sets : List String) (binds : List Json),
      ormUpdateGo item cols sets binds =
        (sets ++ setsFrom binds.length (presentPairs item cols),
         binds ++ (presentPairs item cols).map fun p => p.2) := by
  intro cols
  induction cols with
  | nil => intro sets binds; simp [ormUpdateGo, presentPairs, setsFrom]
  | cons c cs ih =>
    intro sets binds
    cases hv : item.get c.name with
    | none =>
      simp only [ormUpdateGo, hv]
      rw [ih]
      simp [presentPairs, List.filterMap_cons, hv]
    | some v =>
      simp only [ormUpdateGo, hv]
      rw [ih]
      simp only [presentPairs, List.filterMap_cons, hv, Option.map_some']
      rw [List.length_append]
      simp [List.append_assoc, setsFrom]

/-! # Claim theorems -/

/-- Claim C1 (corrected): OrmStruct::insert synthesizes a fresh generated
identifier for a generated-key (uuid) column exactly when the serialized value
for that column is ABSENT; otherwise it binds the item's keyed field, null when
absent.  Two successive inserts of the same item draw their generated
identifiers from disjoint windows of an injective stream, so the generated
value of the second insert differs from the first. -/
theorem insert_generated_key_only_when_absent (schema : TableSchema) (item : Json)
    (gen : Nat → String) (g : Nat) (hinj : Function.Injective gen) (i : Nat)
    (c : ColumnSchema) (hc : schema.columns.get? i = some c) :
    (¬(c.uuid = true ∧ item.get c.name = none) →
      (OrmStruct.insertStmt schema item gen g).1.2.get? i =
        some ((item.get c.name).getD Json.null)) ∧
    ((c.uuid = true ∧ item.get c.name = none) →
      (∃ j, (OrmStruct.insertStmt schema item gen g).1.2.get? i = some (Json.str (gen j))) ∧
      (OrmStruct.insertStmt schema item gen g).1.2.get? i ≠
        (OrmStruct.insertStmt schema item gen
          ((OrmStruct.insertStmt schema item gen g).2)).1.2.get? i) := by
  have hcond : ((c.uuid && (item.get c.name).isNone) = true) ↔
      (c.uuid = true ∧ item.get c.name = none) := by
    simp [Bool.and_eq_true, Option.isNone_iff_eq_none]
  have hmain := insertVals_get item gen schema.columns g i c hc
  have hmain2 := insertVals_get item gen schema.columns
    ((insertVals item gen schema.columns g).2) i c hc
  constructor
  · intro hneg
    rw [if_neg (fun hh => hneg (hcond.mp hh))] at hmain
    exact hmain
  · intro hpos
    have hbool := hcond.mpr hpos
    rw [if_pos hbool] at hmain hmain2
    obtain ⟨j, hj1, hj2, hj3⟩ := hmain
    obtain ⟨j', hj1', hj2', hj3'⟩ := hmain2
    refine ⟨⟨j, hj3⟩, ?_⟩
    show (insertVals item gen schema.columns g).1.get? i ≠
      (insertVals item gen schema.columns ((insertVals item gen schema.columns g).2)).1.get? i
    rw [hj3, hj3']
    intro heq
    have h1 := Option.some.inj heq
    have h2 : gen j = gen j' := by injection h1
    have h3 : j = j' := hinj h2
    omega

/-- Claim C1 counterexample: an item whose generated-key field is serialized
as the EMPTY STRING keeps that empty string as the bound value; no fresh
identifier is synthesized, refuting the absent-or-empty reading. -/
theorem insert_empty_string_id_not_regenerated :
    (OrmStruct.insertStmt usersSchema demoItemEmptyId demoGen 0).1.2.get? 0 =
      some (Json.str "") ∧
    Json.str "" ≠ Json.str (demoGen 0) := by
  have hne : ("" : String) ≠ demoGen 0 := by decide
  exact ⟨rfl, fun h => hne (by injection h)⟩

/-- Claim C1 witness: with the id field absent, the first insert binds a
stream identifier at position 0, the second insert generates a different one,
and the name column keeps its serialized value. -/
theorem insert_generated_key_only_when_absent_witness :
    (∃ j, (OrmStruct.insertStmt usersSchema demoItemNoId demoGen 0).1.2.get? 0 =
      some (Json.str (demoGen j))) ∧
    (OrmStruct.insertStmt usersSchema demoItemNoId demoGen 0).1.2.get? 0 ≠
      (OrmStruct.insertStmt usersSchema demoItemNoId demoGen
        ((OrmStruct.insertStmt usersSchema demoItemNoId demoGen 0).2)).1.2.get? 0 ∧
    (OrmStruct.insertStmt usersSchema demoItemNoId demoGen 0).1.2.get? 1 =
      some (Json.str "Ada") := by
  have h := insert_generated_key_only_when_absent usersSchema demoItemNoId demoGen 0
    demoGen_injective 0 ⟨"id", "TEXT", true, false, false, true⟩ rfl
  have h2 := h.2 ⟨rfl, rfl⟩
  have hname := insert_generated_key_only_when_absent usersSchema demoItemNoId demoGen 0
    demoGen_injective 1 ⟨"name", "TEXT", false, false, false, false⟩ rfl
  exact ⟨h2.1, h2.2, hname.1 (by simp)⟩

/-- Claim C2: SELECT placeholders are numbered continuously: the i-th WHERE
condition uses placeholder i+1, the j-th HAVING condition uses
wheres.length + j + 1, the parameters are bound as all WHERE values then all
HAVING values, and with 2 WHERE and 1 HAVING clause the HAVING placeholder is
number 3. -/
theorem select_placeholder_numbering_continuous (q : Query) (i j : Nat) :
    (whereConds q.wheres).get? i =
      (q.wheres.get? i).map (fun w => w.1 ++ " " ++ w.2.1 ++ " $" ++ toString (i + 1)) ∧
    (havingConds q.wheres.length q.havings).get? j =
      (q.havings.get? j).map
        (fun w => w.1 ++ " " ++ w.2.1 ++ " $" ++ toString (q.wheres.length + j + 1)) ∧
    q.selectParams = q.wheres.map (fun w => w.2.2) ++ q.havings.map (fun w => w.2.2) ∧
    havingConds 2 [("count", ">", "1")] = ["count > $3"] :=
  ⟨whereConds_get q.wheres i, havingConds_get q.wheres.length q.havings j, rfl, rfl⟩

/-- Claim C3: a builder on which no clause-accumulating method was called
emits exactly SELECT * FROM t with an empty parameter list (both for
new_orm Query::get and for query_builder build_sql), and every empty clause
list contributes nothing to the SQL text. -/
theorem empty_builder_emits_bare_select (t k : String) (n : Nat) :
    (Query.new t k).selectSql = "SELECT * FROM " ++ t ∧
    (Query.new t k).selectParams = [] ∧
    (QueryBuilder.new t).build_sql = "SELECT * FROM " ++ t ∧
    (QueryBuilder.new t).params = [] ∧
    whereSeg [] = "" ∧ groupSeg [] = "" ∧ havingSeg n [] = "" ∧
    orderSeg none = "" ∧ limitSeg none = "" ∧ offsetSeg none = "" := by
  refine ⟨?_, rfl, ?_, rfl, rfl, rfl, rfl, rfl, rfl, rfl⟩
  · simp [Query.selectSql, Query.new, whereSeg, groupSeg, havingSeg, orderSeg, limitSeg,
      offsetSeg, whereConds, havingConds, ← String.append_assoc]
  · simp [QueryBuilder.build_sql, QueryBuilder.new, ← String.append_assoc]
    rfl

/-- Claim C4: like and ilike always bind the pattern wrapped in percent
wildcards, never the raw pattern (the wrapped string is never equal to the raw
one), and push a single condition whose placeholder index is one past the
number of previously bound parameters. -/
theorem like_ilike_wrap_pattern (qb : QueryBuilder) (col p : String) :
    (qb.like col p).params = qb.params ++ ["%" ++ p ++ "%"] ∧
    (qb.like col p).wheres = qb.wheres ++ [col ++ " LIKE $" ++ toString (qb.params.length + 1)] ∧
    (qb.ilike col p).params = qb.params ++ ["%" ++ p ++ "%"] ∧
    (qb.ilike col p).wheres = qb.wheres ++ [col ++ " ILIKE $" ++ toString (qb.params.length + 1)] ∧
    "%" ++ p ++ "%" ≠ p := by
  refine ⟨rfl, rfl, rfl, rfl, fun h => ?_⟩
  have h2 := congrArg String.length h
  rw [String.length_append, String.length_append] at h2
  have e1 : "%".length = 1 := rfl
  rw [e1] at h2
  omega

/-- Claim C4 witness: a concrete builder binding the wrapped pattern. -/
theorem like_ilike_wrap_pattern_witness :
    ((QueryBuilder.new "users").like "name" "Ada").params = ["%Ada%"] ∧
    ((QueryBuilder.new "users").like "name" "Ada").wheres = ["name LIKE $1"] ∧
    ((QueryBuilder.new "users").ilike "name" "Ada").params = ["%Ada%"] ∧
    ((QueryBuilder.new "users").ilike "name" "Ada").wheres = ["name ILIKE $1"] ∧
    "%Ada%" ≠ "Ada" :=
  like_ilike_wrap_pattern (QueryBuilder.new "users") "name" "Ada"

/-- Claim C5 (corrected): Table::get on a filter object with a key count other
than one aborts with the precondition violation before any statement is built;
on exactly one pair whose value is a string (and a registered schema) it
proceeds to the single-column equality lookup with one bound parameter. -/
theorem table_get_single_filter_spec (schemas : List TableSchema) (t : TableM)
    (m : List (String × Json)) :
    (m.length ≠ 1 →
      Table.get schemas t (Json.obj m) =
        Except.error (OrmError.preconditionViolation "Only single-column filter supported")) ∧
    (∀ (c s : String) (sc : TableSchema), m = [(c, Json.str s)] →
      schemas.find? (fun x => x.name == t.name) = some sc →
      Table.get schemas t (Json.obj m) =
        Except.ok ("SELECT * FROM " ++ sc.name ++ " WHERE " ++ c ++ " = $1 LIMIT 1", [s])) := by
  constructor
  · intro hlen
    simp [Table.get, hlen]
  · rintro c s sc rfl hfind
    simp [Table.get, OrmStruct.firstStmt, hfind]

/-- Claim C5 counterexample: a filter with exactly one pair whose value is not
a string does NOT proceed to the equality lookup; the value.as_str().unwrap()
call aborts instead. -/
theorem table_get_single_nonstring_filter_panics :
    Table.get [usersSchema] demoTable (Json.obj [("age", Json.int 30)]) =
      Except.error (OrmError.panicked "filter value must be a string") := rfl

/-- Claim C5 witness: zero keys and two keys abort with the precondition
violation, one string-valued pair builds the lookup. -/
theorem table_get_single_filter_spec_witness :
    Table.get [usersSchema] demoTable (Json.obj []) =
      Except.error (OrmError.preconditionViolation "Only single-column filter supported") ∧
    Table.get [usersSchema] demoTable
        (Json.obj [("name", Json.str "Ada"), ("email", Json.str "a@b")]) =
      Except.error (OrmError.preconditionViolation "Only single-column filter supported") ∧
    Table.get [usersSchema] demoTable (Json.obj [("email", Json.str "ada@mail.com")]) =
      Except.ok ("SELECT * FROM users WHERE email = $1 LIMIT 1", ["ada@mail.com"]) := by
  refine ⟨(table_get_single_filter_spec [usersSchema] demoTable []).1 (by decide),
    (table_get_single_filter_spec [usersSchema] demoTable
      [("name", Json.str "Ada"), ("email", Json.str "a@b")]).1 (by decide),
    (table_get_single_filter_spec [usersSchema] demoTable
      [("email", Json.str "ada@mail.com")]).2 "email" "ada@mail.com" usersSchema rfl rfl⟩

/-- Claim C6: on an empty result set, first returns Ok none (an empty
indicator, no error) while first_value fails with RowNotFound; on a non-empty
result set first returns its first decoded record and first_value that
record's inner value. -/
theorem first_none_first_value_notfound (q : Query) (rows : List Row)
    (hall : ∀ rw ∈ rows, (RecordM.new q.table_name (decodeRow rw) q.key_column).isSome) :
    (rows = [] →
      q.first rows = Except.ok none ∧ q.first_value rows = Except.error OrmError.rowNotFound) ∧
    (∀ (rw : Row) (rs : List Row) (rec : RecordM), rows = rw :: rs →
      RecordM.new q.table_name (decodeRow rw) q.key_column = some rec →
      q.first rows = Except.ok (some rec) ∧ q.first_value rows = Except.ok rec.value) := by
  constructor
  · rintro rfl
    exact ⟨rfl, rfl⟩
  · rintro rw rs rec rfl hrec
    obtain ⟨l, hl⟩ := getRecords_ok_of_all q rs (fun x hm => hall x (by simp [hm]))
    have hfirst : (q.withLimit 1).getRecords (rw :: rs) = Except.ok (rec :: l) := by
      rw [getRecords_withLimit]
      simp [Query.getRecords, hrec, hl, Except.map]
    constructor
    · simp [Query.first, hfirst, Bind.bind, Except.bind, Pure.pure, Except.pure]
    · simp [Query.first_value, hfirst, Bind.bind, Except.bind, Pure.pure, Except.pure]

/-- Claim C6 witness: the empty result set and a one-row result set. -/
theorem first_none_first_value_notfound_witness :
    (Query.new "users" "id").first [] = Except.ok none ∧
    (Query.new "users" "id").first_value [] = Except.error OrmError.rowNotFound ∧
    (Query.new "users" "id").first [demoRowA] = Except.ok (some demoRecA) ∧
    (Query.new "users" "id").first_value [demoRowA] = Except.ok demoRecA.value := by
  have h1 := first_none_first_value_notfound (Query.new "users" "id") []
    (by intro rw h; cases h)
  have h2 := first_none_first_value_notfound (Query.new "users" "id") [demoRowA]
    (by intro rw h; rw [List.mem_singleton] at h; subst h; rfl)
  exact ⟨(h1.1 rfl).1, (h1.1 rfl).2,
    (h2.2 demoRowA [] demoRecA rfl rfl).1, (h2.2 demoRowA [] demoRecA rfl rfl).2⟩

/-- Claim C7: the nested try_get chain decodes a cell as the first succeeding
extraction in the strict priority order int, float, bool, text (a successfully
extracted null included), null when all four fail: it coincides with the
first-success fold over the attempt list. -/
theorem decode_row_priority_order (c : Cell) :
    decodeCell c = firstSuccess (cellAttempts c) := by
  obtain ⟨i, f, b, t⟩ := c
  rcases i with _ | (_ | v) <;> rcases f with _ | (_ | v) <;>
    rcases b with _ | (_ | v) <;> rcases t with _ | (_ | v) <;> rfl

/-- Claim C8: the UPDATE statements of Record::update and OrmStruct::update
have the shape UPDATE t SET col1 = $1, ..., colk = $k WHERE key = $(k+1):
only the payload's (resp. the schema's present) columns are set, in order,
the i-th assignment uses placeholder i+1, and the key value is the last bound
parameter. -/
theorem update_statement_shape (tname k idS : String) (v : Json)
    (ps : List (String × String)) (schema : TableSchema) (col val : String) (item : Json) :
    RecordM.updateStmt ⟨tname, v, k, Json.str idS⟩ (ps.map fun p => (p.1, Json.str p.2)) =
      Except.ok ("UPDATE " ++ tname ++ " SET " ++ String.intercalate ", " (setsFrom 0 ps)
          ++ " WHERE " ++ k ++ " = $" ++ toString (ps.length + 1),
        (ps.map fun p => p.2) ++ [idS]) ∧
    ((ps.map fun p => p.2) ++ [idS]).getLast? = some idS ∧
    OrmStruct.updateStmt schema col val item =
      ("UPDATE " ++ schema.name ++ " SET "
          ++ String.intercalate ", " (setsFrom 0 (presentPairs item schema.columns))
          ++ " WHERE " ++ col ++ " = $"
          ++ toString ((presentPairs item schema.columns).length + 1),
        ((presentPairs item schema.columns).map fun p => p.2) ++ [Json.str val]) ∧
    (∀ (n i : Nat) (qs : List (String × String)),
      (setsFrom n qs).get? i = (qs.get? i).map fun q => q.1 ++ " = $" ++ toString (n + i + 1)) := by
  refine ⟨?_, List.getLast?_concat _, ?_, fun n i qs => setsFrom_get qs n i⟩
  · simp [RecordM.updateStmt, updateGo_spec, Bind.bind, Except.bind, List.length_map]
  · simp [OrmStruct.updateStmt, ormUpdateGo_spec, List.length_map]

/-- Claim C9: Record::update re-fetches through a WHERE key = $1 lookup whose
single bound parameter is the key value snapshotted at the Record's
construction (taken from the originally decoded value, not from the update
payload), returns the freshly decoded fetched row, and hands back the
receiver record with every field unchanged. -/
theorem record_update_refetches_snapshotted_key (tname k idS : String) (v updates : Json)
    (rows : List Row) (r : RecordM) (exec : UpdateExec) (r' : RecordM)
    (hmk : RecordM.new tname v k = some r)
    (hid : r.id = Json.str idS)
    (hrun : r.update updates rows = Except.ok (exec, r')) :
    exec.refetchParams = [idS] ∧
    r' = r ∧
    v.get k = some (Json.str idS) ∧
    exec.refetchSql = "SELECT * FROM " ++ tname ++ " WHERE " ++ k ++ " = $1" ∧
    (∃ rw, rows.getLast? = some rw ∧ exec.result = decodeRow rw) := by
  rw [RecordM.new, Option.map_eq_some'] at hmk
  obtain ⟨i0, hv, hr⟩ := hmk
  subst hr
  have hid' : i0 = Json.str idS := hid
  subst hid'
  cases updates with
  | obj m =>
    cases hgo : updateGo m [] [] with
    | error e =>
      simp [RecordM.update, RecordM.updateStmt, hgo, Bind.bind, Except.bind] at hrun
    | ok sv =>
      simp only [RecordM.update, RecordM.updateStmt, hgo, Bind.bind, Except.bind,
        QueryBuilder.fetch_one, QueryBuilder.fetch_all] at hrun
      cases hlast : (rows.map decodeRow).getLast? with
      | none =>
        rw [hlast] at hrun
        exact Except.noConfusion hrun
      | some res =>
        rw [hlast] at hrun
        have hpair := Except.ok.inj hrun
        rw [Prod.ext_iff] at hpair
        obtain ⟨h1, h2⟩ := hpair
        subst h1
        subst h2
        refine ⟨?_, rfl, hv, ?_, ?_⟩
        · simp [QueryBuilder.whereOp, QueryBuilder.new]
        · show ((QueryBuilder.new tname).whereOp k "=" idS).build_sql = _
          simp only [QueryBuilder.build_sql, QueryBuilder.whereOp, QueryBuilder.new,
            List.nil_append, List.isEmpty_nil, List.isEmpty_cons, intercalate_single]
          apply String.ext
          simp [String.data_append, List.append_assoc]
          rfl
        · rw [List.getLast?_map, Option.map_eq_some'] at hlast
          obtain ⟨rw0, hlw, hde⟩ := hlast
          exact ⟨rw0, hlw, hde.symm⟩
  | null => exact Except.noConfusion hrun
  | bool b => exact Except.noConfusion hrun
  | int n => exact Except.noConfusion hrun
  | float f => exact Except.noConfusion hrun
  | str s => exact Except.noConfusion hrun

/-- Claim C9 witness: an update whose payload rewrites the key column to zz
still re-fetches by the snapshotted a1, and the receiver record comes back
unchanged. -/
theorem record_update_refetches_snapshotted_key_witness :
    demoExec.refetchParams = ["a1"] ∧
    demoRecA = demoRecA ∧
    demoRecA.value.get "id" = some (Json.str "a1") ∧
    demoExec.refetchSql = "SELECT * FROM users WHERE id = $1" ∧
    (∃ rw, ([demoRowB] : List Row).getLast? = some rw ∧ demoExec.result = decodeRow rw) :=
  record_update_refetches_snapshotted_key "users" "id" "a1" demoRecA.value demoUpdates
    [demoRowB] demoRecA demoExec demoRecA rfl rfl rfl

/-- Claim C10: fetch_one pops the decoded result vector, so it returns the
decoded LAST row of the result sequence, and it fails with RowNotFound exactly
when the result set is empty. -/
theorem fetch_one_returns_last_row (qb : QueryBuilder) (rows : List Row) :
    (qb.fetch_one rows = Except.error OrmError.rowNotFound ↔ rows = []) ∧
    (∀ (rs : List Row) (rw : Row), rows = rs ++ [rw] →
      qb.fetch_one rows = Except.ok (decodeRow rw)) := by
  constructor
  · simp only [QueryBuilder.fetch_one, QueryBuilder.fetch_all, List.getLast?_map]
    cases h : rows.getLast? with
    | none =>
      rw [List.getLast?_eq_none_iff] at h
      simp [h, Bind.bind, Except.bind]
    | some rw =>
      have hne : rows ≠ [] := by
        intro he; rw [he] at h; simp at h
      simp [h, Bind.bind, Except.bind, hne]
  · intro rs rw hrows
    subst hrows
    simp [QueryBuilder.fetch_one, QueryBuilder.fetch_all, List.getLast?_map,
      List.getLast?_concat, Bind.bind, Except.bind]

/-- Claim C10 witness: an empty result set errors; a two-row result set
returns the decoded second (last) row, not the first. -/
theorem fetch_one_returns_last_row_witness :
    (QueryBuilder.new "users").fetch_one [] = Except.error OrmError.rowNotFound ∧
    (QueryBuilder.new "users").fetch_one [demoRowA, demoRowB] = Except.ok (decodeRow demoRowB) :=
  ⟨(fetch_one_returns_last_row (QueryBuilder.new "users") []).1.mpr rfl,
   (fetch_one_returns_last_row (QueryBuilder.new "users") [demoRowA, demoRowB]).2
     [demoRowA] demoRowB rfl⟩

end SlintOrm
